import Mathlib

/-!
Verification development for the AIMailBox email pipeline.

Python strings are modelled as `List Char` (Unicode codepoints); byte strings
(the results of `str.encode()`) are modelled as `List Nat` with every entry
below 256.  Machine words are `Nat` with explicit reduction modulo `2 ^ 32`.
Fallible Python code is modelled with `Option`/`Except`; a raised exception
that escapes a function is `Except.error`.
-/

set_option maxRecDepth 100000

/-- Python `str` modelled as its list of codepoints. -/
abbrev PyStr := List Char

/-- Minimal model of the Python exception kinds that the sources can raise. -/
inductive PyErr where
  | typeError
  | attributeError
  deriving DecidableEq, Repr

namespace MailBox

/- ### Basic character/string helpers shared by all modules -/

/-- ASCII whitespace as recognised by Python's `str.strip()` / `re` `\s`
(model restricted to the ASCII whitespace characters, which are the only
whitespace characters exercised by the theorems below). -/
def isSpacePy (c : Char) : Bool :=
  c = ' ' || c = '\t' || c = '\n' || c = '\r' || c = '\x0b' || c = '\x0c'

/-- `str.strip()` with no arguments: drop whitespace from both ends. -/
def pyStrip (s : PyStr) : PyStr :=
  ((s.dropWhile isSpacePy).reverse.dropWhile isSpacePy).reverse

/-- One step of Python `str.lower()`.  A faithful model for: ASCII `A`-`Z`;
the Latin-1 capitals `À`-`Þ` (excluding `×`); `Ÿ` (U+0178), `ẞ` (U+1E9E),
Kelvin `K` (U+212A) and Angstrom `Å` (U+212B); and `İ` (U+0130), which
Python lowers to the two-character sequence `i` + combining dot above.
These are exactly the characters whose Python lowercase image intersects
the character sets searched by the heuristics below; every other character
is kept unchanged. -/
def pyLowerChar (c : Char) : List Char :=
  if 'A' ≤ c ∧ c ≤ 'Z' then [Char.ofNat (c.toNat + 32)]
  else if 0xC0 ≤ c.toNat ∧ c.toNat ≤ 0xDE ∧ c.toNat ≠ 0xD7 then [Char.ofNat (c.toNat + 32)]
  else if c.toNat = 0x178 then [Char.ofNat 0xFF]
  else if c.toNat = 0x1E9E then [Char.ofNat 0xDF]
  else if c.toNat = 0x212A then ['k']
  else if c.toNat = 0x212B then [Char.ofNat 0xE5]
  else if c.toNat = 0x130 then ['i', Char.ofNat 0x307]
  else [c]

/-- Python `str.lower()` on a whole string. -/
def pyLower (s : PyStr) : PyStr :=
  s.flatMap pyLowerChar

/-- Does `hay` start with `pat`? -/
def startsWithL (pat hay : List Char) : Bool :=
  match pat, hay with
  | [], _ => true
  | _ :: _, [] => false
  | p :: ps, h :: hs => p = h && startsWithL ps hs

/-- Split `hay` at the first occurrence of `pat`, returning the part before
the occurrence and the part after it.  `none` when `pat` never occurs. -/
def splitFirstInfix (pat : List Char) : List Char → Option (List Char × List Char)
  | [] => if pat = [] then some ([], []) else none
  | c :: rest =>
    if startsWithL pat (c :: rest) then some ([], (c :: rest).drop pat.length)
    else (splitFirstInfix pat rest).map (fun p => (c :: p.1, p.2))

/-- Python substring test `pat in hay`. -/
def containsSub (hay pat : List Char) : Bool :=
  (splitFirstInfix pat hay).isSome

/-- Strip a literal leading `pat` from `cs` (used to model a regex literal). -/
def stripLead (pat : List Char) (cs : List Char) : Option (List Char) :=
  match pat, cs with
  | [], rest => some rest
  | _ :: _, [] => none
  | p :: ps, c :: rest => if p = c then stripLead ps rest else none

/-- Python `s.split('\n')`: always at least one (possibly empty) piece. -/
def splitOnNl : List Char → List PyStr
  | [] => [[]]
  | c :: rest =>
    if c = '\n' then [] :: splitOnNl rest
    else
      match splitOnNl rest with
      | h :: t => (c :: h) :: t
      | [] => [[c]]

/-- Python `'\n'.join(lines)`. -/
def joinNl : List PyStr → PyStr
  | [] => []
  | [l] => l
  | l :: rest => l ++ '\n' :: joinNl rest

/-- Indicator of a `Bool` as a `Nat` (`sum(1 for ... if cond)`). -/
def b2n (b : Bool) : Nat := if b then 1 else 0

/- ### SHA-256 over byte lists (`hashlib.sha256`), words as `Nat` mod `2^32` -/

/-- `2 ^ 32`. -/
def w32 : Nat := 4294967296

/-- Truncated addition of 32-bit words. -/
def add32 (a b : Nat) : Nat := (a + b) % w32

/-- Right rotation of a 32-bit word. -/
def rotr32 (n x : Nat) : Nat := ((x >>> n) ||| (x <<< (32 - n))) % w32

/-- Bitwise complement of a 32-bit word. -/
def not32 (x : Nat) : Nat := Nat.xor x (w32 - 1)

def shaCh (x y z : Nat) : Nat := Nat.xor (Nat.land x y) (Nat.land (not32 x) z)

def shaMaj (x y z : Nat) : Nat :=
  Nat.xor (Nat.xor (Nat.land x y) (Nat.land x z)) (Nat.land y z)

def bigSigma0 (x : Nat) : Nat := Nat.xor (Nat.xor (rotr32 2 x) (rotr32 13 x)) (rotr32 22 x)

def bigSigma1 (x : Nat) : Nat := Nat.xor (Nat.xor (rotr32 6 x) (rotr32 11 x)) (rotr32 25 x)

def smallSigma0 (x : Nat) : Nat := Nat.xor (Nat.xor (rotr32 7 x) (rotr32 18 x)) (x >>> 3)

def smallSigma1 (x : Nat) : Nat := Nat.xor (Nat.xor (rotr32 17 x) (rotr32 19 x)) (x >>> 10)

/-- The 64 SHA-256 round constants (FIPS 180-4, written in decimal). -/
def shaK : List Nat :=
  [1116352408, 1899447441, 3049323471, 3921009573,
   961987163, 1508970993, 2453635748, 2870763221,
   3624381080, 310598401, 607225278, 1426881987,
   1925078388, 2162078206, 2614888103, 3248222580,
   3835390401, 4022224774, 264347078, 604807628,
   770255983, 1249150122, 1555081692, 1996064986,
   2554220882, 2821834349, 2952996808, 3210313671,
   3336571891, 3584528711, 113926993, 338241895,
   666307205, 773529912, 1294757372, 1396182291,
   1695183700, 1986661051, 2177026350, 2456956037,
   2730485921, 2820302411, 3259730800, 3345764771,
   3516065817, 3600352804, 4094571909, 275423344,
   430227734, 506948616, 659060556, 883997877,
   958139571, 1322822218, 1537002063, 1747873779,
   1955562222, 2024104815, 2227730452, 2361852424,
   2428436474, 2756734187, 3204031479, 3329325298]

/-- The eight SHA-256 working registers. -/
structure Hash8 where
  a : Nat
  b : Nat
  c : Nat
  d : Nat
  e : Nat
  f : Nat
  g : Nat
  h : Nat

/-- Initial SHA-256 hash state (FIPS 180-4, written in decimal). -/
def shaH0 : Hash8 :=
  ⟨1779033703, 3144134277, 1013904242, 2773480762,
   1359893119, 2600822924, 528734635, 1541459225⟩

/-- Big-endian packing of bytes into 32-bit words. -/
def bytesToWords : List Nat → List Nat
  | b0 :: b1 :: b2 :: b3 :: rest =>
    (b0 * 16777216 + b1 * 65536 + b2 * 256 + b3) % w32 :: bytesToWords rest
  | _ => []

/-- Message-schedule extension: `acc` holds the words produced so far in
reverse order; `fuel` counts the remaining words (48 for SHA-256). -/
def extendW (acc : List Nat) : Nat → List Nat
  | 0 => acc.reverse
  | fuel + 1 =>
    extendW
      ((add32 (add32 (smallSigma1 (acc.getD 1 0)) (acc.getD 6 0))
         (add32 (smallSigma0 (acc.getD 14 0)) (acc.getD 15 0))) :: acc)
      fuel

/-- One SHA-256 round. -/
def compressStep (st : Hash8) (kw : Nat × Nat) : Hash8 :=
  let t1 := add32 (add32 (add32 st.h (bigSigma1 st.e)) (add32 (shaCh st.e st.f st.g) kw.1)) kw.2
  let t2 := add32 (bigSigma0 st.a) (shaMaj st.a st.b st.c)
  ⟨add32 t1 t2, st.a, st.b, st.c, add32 st.d t1, st.e, st.f, st.g⟩

/-- Process one 64-byte block. -/
def compressBlock (h : Hash8) (block : List Nat) : Hash8 :=
  let w := extendW (bytesToWords block).reverse 48
  let st := (shaK.zip w).foldl compressStep h
  ⟨add32 h.a st.a, add32 h.b st.b, add32 h.c st.c, add32 h.d st.d,
   add32 h.e st.e, add32 h.f st.f, add32 h.g st.g, add32 h.h st.h⟩

/-- Big-endian bytes of a 32-bit word. -/
def wordBytes (x : Nat) : List Nat :=
  [x / 16777216 % 256, x / 65536 % 256, x / 256 % 256, x % 256]

/-- The 32 digest bytes of a final hash state. -/
def hashBytes (h : Hash8) : List Nat :=
  wordBytes h.a ++ wordBytes h.b ++ wordBytes h.c ++ wordBytes h.d ++
  wordBytes h.e ++ wordBytes h.f ++ wordBytes h.g ++ wordBytes h.h

/-- Big-endian bytes of the 64-bit bit-length field. -/
def lenBytes (bits : Nat) : List Nat :=
  [bits / 72057594037927936 % 256, bits / 281474976710656 % 256,
   bits / 1099511627776 % 256, bits / 4294967296 % 256,
   bits / 16777216 % 256, bits / 65536 % 256, bits / 256 % 256, bits % 256]

/-- SHA-256 padding: `0x80`, zeros to 56 mod 64, then the bit length. -/
def shaPad (msg : List Nat) : List Nat :=
  let l := msg.length
  msg ++ 128 :: List.replicate ((119 - l % 64) % 64) 0 ++ lenBytes (l * 8)

/-- Split a byte list into 64-byte chunks (structural recursion on a fuel
bound; the fuel `l.length` always suffices because every step consumes 64
bytes of a non-empty list). -/
def chunks64Go : Nat → List Nat → List (List Nat)
  | 0, _ => []
  | _, [] => []
  | fuel + 1, c :: rest => ((c :: rest).take 64) :: chunks64Go fuel ((c :: rest).drop 64)

/-- Split a byte list into 64-byte chunks. -/
def chunks64 (l : List Nat) : List (List Nat) :=
  chunks64Go l.length l

/-- SHA-256 of a byte list, returning the 32 digest bytes. -/
def sha256 (msg : List Nat) : List Nat :=
  hashBytes ((chunks64 (shaPad msg)).foldl compressBlock shaH0)

/-- Lowercase hex digit of a nibble. -/
def hexDigit (n : Nat) : Char :=
  if n < 10 then Char.ofNat (48 + n) else Char.ofNat (87 + n)

/-- `bytes.hex()` / `hexdigest()`: lowercase hex string of a byte list. -/
def bytesToHex (bs : List Nat) : PyStr :=
  bs.flatMap (fun b => [hexDigit (b / 16 % 16), hexDigit (b % 16)])

/- ### HMAC-SHA256 (`hmac.new(key, msg, hashlib.sha256)`) -/

/-- Pad or shrink an HMAC key to the 64-byte SHA-256 block size. -/
def hmacKey (key : List Nat) : List Nat :=
  let k0 := if 64 < key.length then sha256 key else key
  k0 ++ List.replicate (64 - k0.length) 0

/-- HMAC-SHA256 digest bytes. -/
def hmacSha256 (key msg : List Nat) : List Nat :=
  let k := hmacKey key
  sha256 ((k.map (fun b => Nat.xor b 92)) ++ sha256 ((k.map (fun b => Nat.xor b 54)) ++ msg))

/-- `hmac.new(key, msg, hashlib.sha256).hexdigest()`. -/
def hmacSha256Hex (key msg : List Nat) : PyStr :=
  bytesToHex (hmacSha256 key msg)

/-- `EmailProcessor.verify_signature` (src/email_processor.py, lines 43-54).
`inbound_secret` and `raw_b64` are taken after `str.encode()` (UTF-8 bytes);
`hmac.compare_digest` on two ASCII strings is their equality (its
constant-time evaluation strategy has no functional effect); an exception
inside the `try` (e.g. a non-ASCII `sig_hex` making `compare_digest` raise
`TypeError`) yields `False`, which coincides with the equality test because
the computed digest is always ASCII hex. -/
def verify_signature (inbound_secret raw_b64 : List Nat) (sig_hex : PyStr) : Bool :=
  decide (hmacSha256Hex inbound_secret raw_b64 = sig_hex)

/-- SHA-256 test vector: the empty message. -/
theorem sha256_empty_vector :
    bytesToHex (sha256 []) = ("e3b0c44298fc1c149afbf4c8996fb92427ae41e4649b934ca495991b7852b855").data := by
  decide

/-- SHA-256 test vector: `"abc"`. -/
theorem sha256_abc_vector :
    bytesToHex (sha256 [97, 98, 99]) = ("ba7816bf8f01cfea414140de5dae2223b00361a396177a9cb410ff61f20015ad").data := by
  decide

/-- HMAC-SHA256 test vector (RFC 4231, case 1). -/
theorem hmac_rfc4231_vector :
    hmacSha256Hex (List.replicate 20 11) (("Hi There").data.map Char.toNat) =
      ("b0344c61d8db38535ca8afceaf0bf12b881dc200c9833da726e9376c2e32cff7").data := by
  decide

/-- Supporting lemma: a correctly signed payload always verifies. -/
theorem verify_signature_correct (secret raw : List Nat) :
    verify_signature secret raw (hmacSha256Hex secret raw) = true := by
  simp [verify_signature]

/-- Supporting lemma: any signature other than the payload's HMAC hex digest
is rejected; in particular any change to the `sig_hex` argument (such as a
single bit flip, which always produces a different string) makes
`verify_signature` return `false`. -/
theorem verify_signature_reject_wrong (secret raw : List Nat) (sig : PyStr)
    (h : sig ≠ hmacSha256Hex secret raw) : verify_signature secret raw sig = false := by
  simp [verify_signature]
  exact fun hq => h hq.symm

/-- The SHA-256 digest always has 32 bytes. -/
theorem sha256_length (msg : List Nat) : (sha256 msg).length = 32 := by
  simp [sha256, hashBytes, wordBytes]

/-- Hex encoding doubles the length. -/
theorem bytesToHex_length (bs : List Nat) : (bytesToHex bs).length = 2 * bs.length := by
  induction bs with
  | nil => rfl
  | cons b t ih =>
    simp [bytesToHex] at ih ⊢
    omega

/-- C2 counterexample: the claim says `verify("", signatureHex, secret)` is
`false` for every `signatureHex` and `secret`, but with the empty secret and
the empty payload, supplying the HMAC-SHA256 hex digest of the empty string
makes `verify_signature` return `true`: empty inputs are not rejected. -/
theorem verify_signature_empty_payload_accepts :
    verify_signature [] []
      (("b613679a0814d9ec772f95d778c35fc5ff1697c493715653c6c712144292c5ad").data) = true := by
  decide

/-- C2 (amended): an empty `sig_hex` is always rejected, because the computed
digest is a 64-character hex string and never empty; but an empty `raw_b64`
(or empty secret) is not specially rejected — `verify_signature` simply
compares against the HMAC of the empty string. -/
theorem verify_signature_empty_sig_false (secret raw : List Nat) :
    verify_signature secret raw [] = false := by
  simp only [verify_signature, decide_eq_false_iff_not]
  intro h
  have hl := congrArg List.length h
  simp only [hmacSha256Hex] at hl
  rw [bytesToHex_length] at hl
  simp only [hmacSha256] at hl
  rw [sha256_length] at hl
  simp at hl

/- ### `EmailProcessor.process_email` (src/email_processor.py, lines 163-219)

The base64 decoder and the MIME parser are the Python standard library
(`base64.b64decode`, `email.parser.BytesParser`); they are abstracted as
oracle parameters returning `Option` (an exception or parse failure is
`none`).  The model additionally records the order of the externally visible
processing actions so that "no parse is attempted" is a statement about the
recorded trace. -/

/-- Events recorded by the instrumented `process_email`. -/
inductive PEvent where
  | verifySig
  | b64decode
  | mimeParse
  deriving DecidableEq, Repr

/-- Attachment metadata (`extract_attachments` result entries). -/
structure AttachmentInfo where
  filename : PyStr
  content_type : PyStr
  size : Nat
  deriving DecidableEq, Repr

/-- Abstraction of the parsed `EmailMessage` as far as `process_email` reads
it: the consulted headers (absent header ↦ `none`), the text parts that
`extract_text_parts` would return, and the attachment metadata that
`extract_attachments` would return. -/
structure MsgModel where
  from_h : Option PyStr
  to_h : Option PyStr
  subject_h : Option PyStr
  message_id_h : Option PyStr
  date_h : Option PyStr
  textPlain : Option PyStr
  textHtml : Option PyStr
  attachments : List AttachmentInfo

/-- `ProcessedEmail` (src/email_processor.py, lines 24-34). -/
structure ProcessedEmail where
  from_email : PyStr
  to_email : PyStr
  subject : PyStr
  date : PyStr
  message_id : PyStr
  text_content : Option PyStr
  html_content : Option PyStr
  attachments : List AttachmentInfo
  raw_size : Nat

/-- Truncation of an extracted body to `max_content_length` characters with
the truncation marker (src/email_processor.py, lines 188-192). -/
def truncateContent (max_len : Nat) (t : PyStr) : PyStr :=
  if max_len < t.length then t.take max_len ++ ("...[内容已截断]").data else t

/-- `EmailProcessor.process_email`, instrumented with an event trace.
`b64 : List Nat → Option (List Nat)` models `base64.b64decode` on the UTF-8
bytes of `raw_b64` and `mime` models `BytesParser(...).parsebytes` together
with the repository's `extract_text_parts` / `extract_attachments` readers
of the resulting message.  The second `b64decode` event corresponds to the
second `base64.b64decode(raw_b64)` call computing `raw_size`. -/
def process_email (b64 : List Nat → Option (List Nat)) (mime : List Nat → Option MsgModel)
    (max_len : Nat) (inbound_secret raw_b64 : List Nat) (signature : PyStr) :
    Option ProcessedEmail × List PEvent :=
  if verify_signature inbound_secret raw_b64 signature then
    match b64 raw_b64 with
    | none => (none, [PEvent.verifySig, PEvent.b64decode])
    | some bytes =>
      match mime bytes with
      | none => (none, [PEvent.verifySig, PEvent.b64decode, PEvent.mimeParse])
      | some msg =>
        let text_plain := (msg.textPlain).map (truncateContent max_len)
        let text_html := (msg.textHtml).map (truncateContent max_len)
        (some
          { from_email := msg.from_h.getD []
            to_email := msg.to_h.getD []
            subject := msg.subject_h.getD (("无主题").data)
            date := msg.date_h.getD []
            message_id := msg.message_id_h.getD []
            text_content := text_plain
            html_content := text_html
            attachments := msg.attachments
            raw_size := bytes.length },
         [PEvent.verifySig, PEvent.b64decode, PEvent.mimeParse, PEvent.b64decode])
  else (none, [PEvent.verifySig])

/-- C3: if the signature does not verify, the end-to-end processing returns
no `ProcessedEmail` and neither base64 decoding nor MIME parsing is ever
attempted; conversely, a MIME parse appears in the trace only when
`verify_signature` returned `true`. -/
theorem process_email_aborts_on_bad_signature
    (b64 : List Nat → Option (List Nat)) (mime : List Nat → Option MsgModel)
    (max_len : Nat) (secret raw : List Nat) (sig : PyStr) :
    (verify_signature secret raw sig = false →
      (process_email b64 mime max_len secret raw sig).1 = none ∧
      PEvent.b64decode ∉ (process_email b64 mime max_len secret raw sig).2 ∧
      PEvent.mimeParse ∉ (process_email b64 mime max_len secret raw sig).2) ∧
    (PEvent.mimeParse ∈ (process_email b64 mime max_len secret raw sig).2 →
      verify_signature secret raw sig = true) := by
  constructor
  · intro h
    simp [process_email, h]
  · intro h
    by_contra hfalse
    rw [Bool.not_eq_true] at hfalse
    simp [process_email, hfalse] at h

/-- Witness for C3: with the empty secret/payload and empty signature the
verification fails and processing records no decode or parse; with the
correct signature of the empty payload, a parse implies verification
succeeded. -/
theorem process_email_aborts_on_bad_signature_witness :
    ((process_email (fun _ => some []) (fun _ => none) 100 [] [] []).1 = none ∧
      PEvent.b64decode ∉ (process_email (fun _ => some []) (fun _ => none) 100 [] [] []).2 ∧
      PEvent.mimeParse ∉ (process_email (fun _ => some []) (fun _ => none) 100 [] [] []).2) ∧
    verify_signature [] []
      (("b613679a0814d9ec772f95d778c35fc5ff1697c493715653c6c712144292c5ad").data) = true := by
  constructor
  · exact (process_email_aborts_on_bad_signature (fun _ => some []) (fun _ => none)
      100 [] [] []).1 (by decide)
  · exact (process_email_aborts_on_bad_signature (fun _ => some [])
      (fun b => some ⟨none, none, none, none, none, none, none, []⟩) 100 [] []
      (("b613679a0814d9ec772f95d778c35fc5ff1697c493715653c6c712144292c5ad").data)).2
      (by decide)

/- ### JSON values and a model of `json.loads`

The analyzer stores the decoded AI response as a Python `dict`; JSON values
are modelled by `Json` below.  The `json.loads` model covers the JSON
fragment exercised by this repository: objects, arrays, strings (with the
standard escapes and non-surrogate `\uXXXX`), integers, `true`/`false`/
`null`, and the "extra data" check after the top-level value.  Fractional
and exponent number forms are outside the model. -/

inductive Json where
  | null
  | bool (b : Bool)
  | num (n : Int)
  | str (s : PyStr)
  | arr (xs : List Json)
  | obj (kvs : List (PyStr × Json))

namespace Json

/-- Python truthiness of a `Json` value (`bool(x)`). -/
def truthy : Json → Bool
  | .null => false
  | .bool b => b
  | .num n => n != 0
  | .str s => !s.isEmpty
  | .arr xs => !xs.isEmpty
  | .obj kvs => !kvs.isEmpty

/-- Is the value a Python `str`? -/
def isStr : Json → Bool
  | .str _ => true
  | _ => false

/-- Python `==` against a string literal (a non-`str` value never equals a
string). -/
def eqStr (v : Json) (s : PyStr) : Bool :=
  match v with
  | .str t => t = s
  | _ => false

end Json

/-- Truthiness of an optional value (`dict.get` with no default returns
`None`, which is falsy). -/
def truthyO : Option Json → Bool
  | none => false
  | some v => v.truthy

/-- Python `dict` with `Json` values. -/
abbrev PyDict := List (PyStr × Json)

/-- `dict` lookup (keys are unique by construction). -/
def jget : PyDict → PyStr → Option Json
  | [], _ => none
  | (k, v) :: t, key => if k = key then some v else jget t key

/-- `dict.get(key, default)`. -/
def jgetD (d : PyDict) (key : PyStr) (dflt : Json) : Json :=
  (jget d key).getD dflt

/-- `d[key] = v`: overwrite in place, else append (Python dict semantics). -/
def jset : PyDict → PyStr → Json → PyDict
  | [], key, v => [(key, v)]
  | (k, w) :: t, key, v => if k = key then (k, v) :: t else (k, w) :: jset t key v

/-- JSON whitespace accepted by Python's `json.loads`. -/
def isJsonWs (c : Char) : Bool :=
  c = ' ' || c = '\t' || c = '\n' || c = '\r'

/-- Skip JSON whitespace. -/
def skipWs (cs : List Char) : List Char :=
  cs.dropWhile isJsonWs

/-- Value of a hex digit, if any. -/
def hexVal (c : Char) : Option Nat :=
  if '0' ≤ c ∧ c ≤ '9' then some (c.toNat - 48)
  else if 'a' ≤ c ∧ c ≤ 'f' then some (c.toNat - 87)
  else if 'A' ≤ c ∧ c ≤ 'F' then some (c.toNat - 55)
  else none

/-- Parse the body of a JSON string after the opening quote.  Control
characters below U+0020 must be escaped; `\uXXXX` is modelled for
non-surrogate code points. -/
def parseStrBody : List Char → Option (PyStr × List Char)
  | [] => none
  | '"' :: rest => some ([], rest)
  | '\\' :: 'u' :: a :: b :: c :: d :: rest => do
    let va ← hexVal a
    let vb ← hexVal b
    let vc ← hexVal c
    let vd ← hexVal d
    let n := va * 4096 + vb * 256 + vc * 16 + vd
    if n < 0xd800 ∨ 0xdfff < n ∧ n < 1114112 then
      let (s, r) ← parseStrBody rest
      some (Char.ofNat n :: s, r)
    else none
  | '\\' :: e :: rest => do
    let c ←
      if e = '"' then some '"'
      else if e = '\\' then some '\\'
      else if e = '/' then some '/'
      else if e = 'b' then some '\x08'
      else if e = 'f' then some '\x0c'
      else if e = 'n' then some '\n'
      else if e = 'r' then some '\r'
      else if e = 't' then some '\t'
      else none
    let (s, r) ← parseStrBody rest
    some (c :: s, r)
  | c :: rest =>
    if c.toNat < 32 then none
    else do
      let (s, r) ← parseStrBody rest
      some (c :: s, r)

/-- Digits of a JSON integer: `0`, or a nonzero digit followed by digits
(Python's tokenizer consumes `0` alone when a leading zero is followed by
more digits; the stray digits then fail the surrounding delimiter checks,
as in CPython). -/
def parseDigits : List Char → Option (Nat × List Char)
  | [] => none
  | c :: rest =>
    if c = '0' then some (0, rest)
    else if '1' ≤ c ∧ c ≤ '9' then
      let ds := rest.takeWhile (fun d => '0' ≤ d ∧ d ≤ '9')
      some ((c :: ds).foldl (fun acc d => acc * 10 + (d.toNat - 48)) 0, rest.drop ds.length)
    else none

mutual

/-- Parse one JSON value (fuel-bounded recursion). -/
def parseVal : Nat → List Char → Option (Json × List Char)
  | 0, _ => none
  | fuel + 1, cs =>
    match skipWs cs with
    | 'n' :: 'u' :: 'l' :: 'l' :: rest => some (.null, rest)
    | 't' :: 'r' :: 'u' :: 'e' :: rest => some (.bool true, rest)
    | 'f' :: 'a' :: 'l' :: 's' :: 'e' :: rest => some (.bool false, rest)
    | '"' :: rest => (parseStrBody rest).map (fun p => (.str p.1, p.2))
    | '-' :: rest => (parseDigits rest).map (fun p => (.num (-(p.1 : Int)), p.2))
    | '[' :: rest =>
      (match skipWs rest with
       | ']' :: rest' => some (.arr [], rest')
       | _ => (parseArrItems fuel rest).map (fun p => (.arr p.1, p.2)))
    | '{' :: rest =>
      (match skipWs rest with
       | '}' :: rest' => some (.obj [], rest')
       | _ =>
         (parseObjItems fuel rest).map
           (fun p => (.obj (p.1.foldl (fun d kv => jset d kv.1 kv.2) []), p.2)))
    | cs' => (parseDigits cs').map (fun p => (.num (p.1 : Int), p.2))

/-- Parse the comma-separated items of an array, after `[`. -/
def parseArrItems : Nat → List Char → Option (List Json × List Char)
  | 0, _ => none
  | fuel + 1, cs => do
    let (v, rest) ← parseVal fuel cs
    match skipWs rest with
    | ']' :: rest' => some ([v], rest')
    | ',' :: rest' => do
      let (vs, rest'') ← parseArrItems fuel rest'
      some (v :: vs, rest'')
    | _ => none

/-- Parse the comma-separated key/value pairs of an object (after `{`),
returned in source order; the caller folds them with Python's dict-insertion
semantics, so a duplicate key keeps its first position and its last value,
exactly as `json.loads` does. -/
def parseObjItems : Nat → List Char → Option (List (PyStr × Json) × List Char)
  | 0, _ => none
  | fuel + 1, cs =>
    match skipWs cs with
    | '"' :: rest => do
      let (k, rest1) ← parseStrBody rest
      match skipWs rest1 with
      | ':' :: rest2 => do
        let (v, rest3) ← parseVal fuel rest2
        match skipWs rest3 with
        | '}' :: rest4 => some ([(k, v)], rest4)
        | ',' :: rest4 => do
          let (kvs, rest5) ← parseObjItems fuel rest4
          some ((k, v) :: kvs, rest5)
        | _ => none
      | _ => none
    | _ => none

end

/-- `json.loads`: parse exactly one value, allowing surrounding whitespace
(`none` models a raised `JSONDecodeError`). -/
def json_loads (cs : List Char) : Option Json :=
  match parseVal (2 * cs.length + 8) cs with
  | some (v, rest) => if skipWs rest = [] then some v else none
  | none => none

/- ### `EmailAnalyzer._parse_ai_response` (src/ai_analyzer.py, lines 140-157) -/

/-- First `some` in a list of options. -/
def firstSome : List (Option α) → Option α
  | [] => none
  | some a :: _ => some a
  | none :: t => firstSome t

/-- Length of the maximal leading whitespace run (regex `\s*`). -/
def wsRunLen (cs : List Char) : Nat :=
  (cs.takeWhile isSpacePy).length

/-- Match `\s*\n(.*?)\n```` `` starting right after a literal `` ```json ``:
the greedy `\s*` backtracks from the longest whitespace run, consuming up to
a newline at position `k` (largest such `k` first, as the regex engine
does), and the non-greedy group then extends to the first following
`` "\n```" ``. -/
def fenceAfterJson (cs : List Char) : Option (List Char) :=
  firstSome ((List.range (wsRunLen cs)).reverse.map (fun k =>
    if cs.getD k ' ' = '\n' then
      (splitFirstInfix (('\n' :: ("```").data)) (cs.drop (k + 1))).map Prod.fst
    else none))

/-- `re.search(r'```json\s*\n(.*?)\n```', response, re.DOTALL)`: try every
start position from the left and return the first group-1 content. -/
def searchFence : List Char → Option (List Char)
  | [] => none
  | c :: rest =>
    match (stripLead (("```json").data) (c :: rest)).bind fenceAfterJson with
    | some g => some g
    | none => searchFence rest

/-- `re.search(r'\{.*\}', response, re.DOTALL)`: the leftmost match runs
from the first `{` to the last `}` (greedy `.*` under DOTALL), provided the
last `}` lies strictly after the first `{`. -/
def braceCandidate (cs : List Char) : Option (List Char) :=
  let i := (cs.takeWhile (fun c => c != '{')).length
  let jr := (cs.reverse.takeWhile (fun c => c != '}')).length
  if i < cs.length ∧ jr < cs.length then
    let j := cs.length - 1 - jr
    if i < j then some ((cs.drop i).take (j - i + 1)) else none
  else none

/-- `EmailAnalyzer._parse_ai_response`: fenced `json` block first (content
stripped), else the greedy `{...}` regex match, else the whole response;
`none` models the re-raised `json.JSONDecodeError`. -/
def parse_ai_response (response : PyStr) : Option Json :=
  match searchFence response with
  | some body => json_loads (pyStrip body)
  | none =>
    match braceCandidate response with
    | some cand => json_loads cand
    | none => json_loads response

/-- Balanced-brace scan with the current nesting depth, accumulating the
scanned characters in reverse. -/
def braceScanGo : List Char → Nat → List Char → Option (List Char)
  | [], _, _ => none
  | c :: rest, depth, acc =>
    if c = '}' then
      if depth = 1 then some ((c :: acc).reverse)
      else braceScanGo rest (depth - 1) (c :: acc)
    else if c = '{' then braceScanGo rest (depth + 1) (c :: acc)
    else braceScanGo rest depth (c :: acc)

/-- The claim's reading of strategy (b): the *first top-level* balanced
`{...}` substring, i.e. scan from the first `{` with a brace counter and
stop at the brace that closes it. -/
def firstBalancedBrace (cs : List Char) : Option (List Char) :=
  match splitFirstInfix (['{']) cs with
  | none => none
  | some (_, afterOpen) => braceScanGo afterOpen 1 ['{']

/-- `_parse_ai_response` as claim C5 words it: the body of the first fenced
`json` block, else the first top-level `{...}` substring, else the whole
text. -/
def parse_ai_response_claimed (response : PyStr) : Option Json :=
  match searchFence response with
  | some body => json_loads (pyStrip body)
  | none =>
    match firstBalancedBrace response with
    | some cand => json_loads cand
    | none => json_loads response

/-- Index of the first character satisfying `p`, if any. -/
def firstIdxFrom (p : Char → Bool) : List Char → Option Nat
  | [] => none
  | c :: rest => if p c then some 0 else (firstIdxFrom p rest).map Nat.succ

/-- Strategy (b) as the amended claim words it, computed differently from
`braceCandidate` (via index searches instead of prefix scans): the slice of
the response from the first `{` to the last `}`. -/
def braceSliceDesc (cs : List Char) : Option (List Char) :=
  match firstIdxFrom (fun c => c == '{') cs, firstIdxFrom (fun c => c == '}') cs.reverse with
  | some i, some jr =>
    let j := cs.length - 1 - jr
    if i < j then some ((cs.take (j + 1)).drop i) else none
  | _, _ => none

/-- The amended C5 parsing pipeline, assembled per the amended claim text. -/
def parse_ai_response_desc (response : PyStr) : Option Json :=
  match searchFence response with
  | some body => json_loads (pyStrip body)
  | none =>
    match braceSliceDesc response with
    | some cand => json_loads cand
    | none => json_loads response

/-- `firstIdxFrom` finds exactly the length of the maximal prefix of
characters failing `p`, provided that prefix is proper. -/
theorem firstIdxFrom_eq_takeWhile (p : Char → Bool) (cs : List Char) :
    firstIdxFrom p cs =
      if (cs.takeWhile (fun c => !(p c))).length < cs.length then
        some (cs.takeWhile (fun c => !(p c))).length
      else none := by
  induction cs with
  | nil => simp [firstIdxFrom]
  | cons c rest ih =>
    cases hpc : p c with
    | true => simp [firstIdxFrom, hpc, List.takeWhile_cons]
    | false =>
      simp only [firstIdxFrom, hpc, Bool.false_eq_true, if_false, ih, List.takeWhile_cons,
        Bool.not_false, if_true, List.length_cons]
      by_cases hlt : (List.takeWhile (fun c => !p c) rest).length < rest.length
      · simp [hlt, Nat.succ_lt_succ hlt]
      · have hlt2 : ¬((List.takeWhile (fun c => !p c) rest).length + 1 < rest.length + 1) := by
          omega
        simp [hlt, hlt2]

/-- The greedy `\{.*\}` regex slice and the "first `{` to last `}`" slice of
the amended claim coincide. -/
theorem braceCandidate_eq_braceSliceDesc (cs : List Char) :
    braceCandidate cs = braceSliceDesc cs := by
  unfold braceCandidate braceSliceDesc
  rw [firstIdxFrom_eq_takeWhile, firstIdxFrom_eq_takeWhile]
  have hne1 : (fun c => !(c == '{')) = (fun c : Char => c != '{') := by
    funext c; rfl
  have hne2 : (fun c => !(c == '}')) = (fun c : Char => c != '}') := by
    funext c; rfl
  rw [hne1, hne2]
  by_cases h1 : (cs.takeWhile (fun c => c != '{')).length < cs.length
  · by_cases h2 : (cs.reverse.takeWhile (fun c => c != '}')).length < cs.reverse.length
    · rw [List.length_reverse] at h2
      simp only [h1, h2, and_true, true_and, if_pos, List.length_reverse]
      set i := (cs.takeWhile (fun c => c != '{')).length with hi
      set jr := (cs.reverse.takeWhile (fun c => c != '}')).length with hjr
      set j := cs.length - 1 - jr with hj
      by_cases h3 : i < j
      · simp only [h3, if_pos]
        rw [List.take_drop]
        have harith : i + (j - i + 1) = j + 1 := by omega
        rw [harith]
      · simp [h3]
    · rw [List.length_reverse] at h2
      simp [h1, h2]
  · simp [h1]

/- ### `EmailAnalyzer.detect_language` (src/ai_analyzer.py, lines 20-42) -/

/-- A CJK unified ideograph (`[一-鿿]`). -/
def isCJKChar (c : Char) : Bool :=
  0x4e00 ≤ c.toNat && c.toNat ≤ 0x9fff

/-- An ASCII Latin letter (`[a-zA-Z]`). -/
def isLatinLetter (c : Char) : Bool :=
  ('a' ≤ c && c ≤ 'z') || ('A' ≤ c && c ≤ 'Z')

/-- The French-diacritic character class of the source regex. -/
def frChars : PyStr := ("àáâãäåæçèéêëìíîïðñòóôõöøùúûüýþÿ").data

/-- The German-diacritic character class of the source regex. -/
def deChars : PyStr := ("äöüß").data

/-- The Spanish-diacritic character class of the source regex. -/
def esChars : PyStr := ("áéíóúñü").data

/-- `EmailAnalyzer.detect_language`. -/
def detect_language (text : PyStr) : PyStr :=
  if text.isEmpty then ("zh").data
  else
    let chinese_chars := (text.filter isCJKChar).length
    let english_chars := (text.filter isLatinLetter).length
    if english_chars < chinese_chars then ("zh").data
    else if 0 < english_chars then ("en").data
    else
      let lower := pyLower text
      if lower.any (fun c => frChars.contains c) then ("fr").data
      else if lower.any (fun c => deChars.contains c) then ("de").data
      else if lower.any (fun c => esChars.contains c) then ("es").data
      else ("en").data

/-- The analysis-path heuristic exactly as claim C6 words it: compare the
CJK-ideograph count with the Latin-letter count, then fall through the
diacritic sets in French/German/Spanish priority order. -/
def detect_language_desc (text : PyStr) : PyStr :=
  if text = [] then ("zh").data
  else
    let cjk := text.countP isCJKChar
    let lat := text.countP isLatinLetter
    if lat < cjk then ("zh").data
    else if lat ≠ 0 then ("en").data
    else if frChars.any (fun d => (pyLower text).contains d) then ("fr").data
    else if deChars.any (fun d => (pyLower text).contains d) then ("de").data
    else if esChars.any (fun d => (pyLower text).contains d) then ("es").data
    else ("en").data

/-- Two lists share an element iff they share it the other way round. -/
theorem any_contains_comm (xs ys : List Char) :
    xs.any (fun c => ys.contains c) = ys.any (fun d => xs.contains d) := by
  rw [Bool.eq_iff_iff]
  simp only [List.any_eq_true, List.contains, List.elem_eq_mem, decide_eq_true_eq]
  exact ⟨fun ⟨c, h1, h2⟩ => ⟨c, h2, h1⟩, fun ⟨c, h1, h2⟩ => ⟨c, h2, h1⟩⟩

/-- C6: the analysis-path language detector implements exactly the
claim's decision order (CJK majority → `zh`; any Latin letter → `en`;
French/German/Spanish diacritics in priority order; default `en`;
empty text → `zh`), together with the spec's example evaluations. -/
theorem detect_language_matches_spec :
    (∀ text, detect_language text = detect_language_desc text) ∧
    detect_language (("这是中文邮件内容").data) = ("zh").data ∧
    detect_language (("This is an English email").data) = ("en").data ∧
    detect_language [] = ("zh").data := by
  refine ⟨?_, by decide, by decide, by decide⟩
  intro text
  simp only [detect_language, detect_language_desc, List.countP_eq_length_filter,
    any_contains_comm, List.isEmpty_iff]
  rcases Nat.eq_zero_or_pos (text.filter isLatinLetter).length with h | h
  · simp [h]
  · simp [h, Nat.pos_iff_ne_zero.mp h]

/- ### `EmailAnalyzer.analyze_email_content` (src/ai_analyzer.py, lines 44-68)

The external completion endpoint (`_call_ai_api`, a `requests.post` network
call) is abstracted as an oracle `callApi : PyStr → Option PyStr` mapping
the built prompt to the response content; `none` models a missing API key,
a non-200 status or a raised exception, all of which make `_call_ai_api`
return `None`. -/

/-- `EmailAnalyzer._build_analysis_prompt` (src/ai_analyzer.py, lines
70-99); the `language` parameter is accepted and unused, as in the source.
Literal braces of the JSON template are written `\x7b`/`\x7d`. -/
def build_analysis_prompt (content : PyStr) (language : PyStr) : PyStr :=
  (("你是一个邮件助手，当我给你邮件的时候，你需要根据我给你的指令（如有）：\n1. 提取出这个邮件是要干什么的，目前的进展有哪些（中文回答）\n2. 判断是否需要回信（中文回答）\n3. 如果需要我提供的信息，可以先问我，我会提供。当你拿到可以写回信的信息的时候，你可以开始写作。\n4. 如果需要回信，请给出回信的具体内容。（英文）\n我也会给你提要求，需要你帮我写邮件。\n\n邮件内容：\n").data) ++
  content ++
  (("\n\n请严格按照以下JSON格式返回分析结果，必须用```json ```包围：\n\n```json\n").data) ++
  [Char.ofNat 123] ++
  (("\n  \"intent\": \"邮件意图（inquiry/request/complaint/meeting/order/support/other）\",\n  \"urgency\": \"紧急程度（low/medium/high）\",\n  \"can_auto_reply\": \"是否可以自动回复（true/false）\",\n  \"chinese_content\": \"邮件的中文摘要和目的分析\",\n  \"todo_items\": [\"需要完成的事项列表（需要尽可能详细）\"],\n  \"main_topic\": \"主要话题\",\n  \"requires_info\": \"如果不能自动回复，需要什么额外信息，需要尽可能详细\",\n  \"sentiment\": \"情感倾向（positive/neutral/negative）\",\n  \"need_reply\": \"是否需要回信（true/false）\",\n  \"reply_content\": \"如果需要回信，提供英文回信内容，如果不需要则为空字符串\"\n").data) ++
  [Char.ofNat 125] ++
  (("\n```\n\n只返回JSON格式的内容，用```json ```包围，不要其他文字。").data)

/-- `EmailAnalyzer._get_default_analysis` (src/ai_analyzer.py, lines
159-173). -/
def get_default_analysis (content : PyStr) (language : PyStr) : PyDict :=
  [((("intent").data), Json.str (("other").data)),
   ((("urgency").data), Json.str (("medium").data)),
   ((("can_auto_reply").data), Json.bool false),
   ((("chinese_content").data),
     Json.str (if language = ("zh").data then content.take 100 else ("需要人工翻译").data)),
   ((("todo_items").data), Json.arr [Json.str (("人工处理邮件").data)]),
   ((("main_topic").data), Json.str (("未知主题").data)),
   ((("requires_info").data), Json.str (("需要人工分析").data)),
   ((("sentiment").data), Json.str (("neutral").data)),
   ((("detected_language").data), Json.str language),
   ((("need_reply").data), Json.bool true),
   ((("reply_content").data), Json.str [])]

/-- `EmailAnalyzer.analyze_email_content`: empty content short-circuits to
the default analysis (with the default `'zh'` language); otherwise the AI
response is parsed, a parsed `dict` is annotated with `detected_language`
and `sender`, and every failure (no/empty response, parse error, or a
non-`dict` JSON value, whose item-assignment raises `TypeError`) falls back
to the default analysis for the detected language. -/
def analyze_email_content (callApi : PyStr → Option PyStr) (email_content sender : PyStr) :
    PyDict :=
  if email_content.isEmpty then get_default_analysis email_content (("zh").data)
  else
    let detected := detect_language email_content
    match callApi (build_analysis_prompt email_content detected) with
    | some resp =>
      if resp.isEmpty then get_default_analysis email_content detected
      else
        match parse_ai_response resp with
        | some (Json.obj kvs) =>
          jset (jset kvs (("detected_language").data) (Json.str detected))
            (("sender").data) (Json.str sender)
        | _ => get_default_analysis email_content detected
    | none => get_default_analysis email_content detected

/-- Reading back the key just written. -/
theorem jget_jset_self (d : PyDict) (k : PyStr) (v : Json) :
    jget (jset d k v) k = some v := by
  induction d with
  | nil => simp [jset, jget]
  | cons kv t ih =>
    by_cases h : kv.1 = k
    · simp [jset, jget, h]
    · simp [jset, jget, h, ih]

/-- Writing one key leaves other keys' lookups unchanged. -/
theorem jget_jset_ne (d : PyDict) (k k' : PyStr) (v : Json) (h : k ≠ k') :
    jget (jset d k v) k' = jget d k' := by
  induction d with
  | nil => simp [jset, jget, h]
  | cons kv t ih =>
    by_cases hk : kv.1 = k
    · simp [jset, jget, hk, h]
    · simp [jset, jget, hk, ih]

/-- C4: `analyze_email_content` never fails outward — on empty content it
immediately returns the deterministic default analysis, whose
`detected_language` is `"zh"`, `need_reply` is `True`, `reply_content` is
`""`, `intent` is `"other"`, `urgency` is `"medium"` and `can_auto_reply`
is `False`; and for every content, sender and oracle behaviour the result
is a usable analysis dict carrying a `detected_language` key. -/
theorem analyze_email_content_total_default :
    (∀ (callApi : PyStr → Option PyStr) (sender : PyStr),
      analyze_email_content callApi [] sender = get_default_analysis [] (("zh").data) ∧
      jget (analyze_email_content callApi [] sender) (("detected_language").data) =
        some (Json.str (("zh").data)) ∧
      jget (analyze_email_content callApi [] sender) (("need_reply").data) =
        some (Json.bool true) ∧
      jget (analyze_email_content callApi [] sender) (("reply_content").data) =
        some (Json.str []) ∧
      jget (analyze_email_content callApi [] sender) (("intent").data) =
        some (Json.str (("other").data)) ∧
      jget (analyze_email_content callApi [] sender) (("urgency").data) =
        some (Json.str (("medium").data)) ∧
      jget (analyze_email_content callApi [] sender) (("can_auto_reply").data) =
        some (Json.bool false)) ∧
    (∀ (callApi : PyStr → Option PyStr) (content sender : PyStr),
      jget (analyze_email_content callApi content sender) (("detected_language").data) ≠
        none) := by
  constructor
  · intro callApi sender
    exact ⟨rfl, rfl, rfl, rfl, rfl, rfl, rfl⟩
  · intro callApi content sender
    unfold analyze_email_content
    have hdefault : ∀ c l, jget (get_default_analysis c l) (("detected_language").data) =
        some (Json.str l) := fun c l => rfl
    by_cases hc : content.isEmpty
    · simp only [hc, if_true, hdefault]
      simp
    · rw [Bool.not_eq_true] at hc
      simp only [hc, Bool.false_eq_true, if_false]
      cases callApi (build_analysis_prompt content (detect_language content)) with
      | none => simp [hdefault]
      | some resp =>
        by_cases hr : resp.isEmpty
        · simp only [hr, if_true, hdefault]
          simp
        · rw [Bool.not_eq_true] at hr
          simp only [hr, Bool.false_eq_true, if_false]
          cases hp : parse_ai_response resp with
          | none => simp [hdefault]
          | some v =>
            cases v with
            | obj kvs =>
              rw [jget_jset_ne _ _ _ _ (by decide), jget_jset_self]
              simp
            | null => simp [hdefault]
            | bool b => simp [hdefault]
            | num n => simp [hdefault]
            | str s => simp [hdefault]
            | arr xs => simp [hdefault]

/-- C5 counterexample: on `{"a": 1} x {"b": 2}` the source parser applies
the greedy `\{.*\}` regex, feeds the whole span from the first `{` to the
last `}` to `json.loads`, and raises; the claim's "first top-level `{...}`
substring" reading would decode `{"a": 1}` successfully.  The claim is
therefore false of the code. -/
theorem parse_ai_response_greedy_counterexample :
    parse_ai_response
        ([Char.ofNat 123] ++ (("\"a\": 1").data) ++ [Char.ofNat 125] ++ ((" x ").data) ++
          [Char.ofNat 123] ++ (("\"b\": 2").data) ++ [Char.ofNat 125]) = none ∧
    parse_ai_response_claimed
        ([Char.ofNat 123] ++ (("\"a\": 1").data) ++ [Char.ofNat 125] ++ ((" x ").data) ++
          [Char.ofNat 123] ++ (("\"b\": 2").data) ++ [Char.ofNat 125]) =
      some (Json.obj [((("a").data), Json.num 1)]) ∧
    parse_ai_response
        ([Char.ofNat 123] ++ (("\"a\": 1").data) ++ [Char.ofNat 125] ++ ((" x ").data) ++
          [Char.ofNat 123] ++ (("\"b\": 2").data) ++ [Char.ofNat 125]) ≠
      parse_ai_response_claimed
        ([Char.ofNat 123] ++ (("\"a\": 1").data) ++ [Char.ofNat 125] ++ ((" x ").data) ++
          [Char.ofNat 123] ++ (("\"b\": 2").data) ++ [Char.ofNat 125]) := by
  refine ⟨rfl, rfl, ?_⟩
  intro h
  rw [show parse_ai_response
        ([Char.ofNat 123] ++ (("\"a\": 1").data) ++ [Char.ofNat 125] ++ ((" x ").data) ++
          [Char.ofNat 123] ++ (("\"b\": 2").data) ++ [Char.ofNat 125]) = none from rfl,
    show parse_ai_response_claimed
        ([Char.ofNat 123] ++ (("\"a\": 1").data) ++ [Char.ofNat 125] ++ ((" x ").data) ++
          [Char.ofNat 123] ++ (("\"b\": 2").data) ++ [Char.ofNat 125]) =
      some (Json.obj [((("a").data), Json.num 1)]) from rfl] at h
  exact Option.noConfusion h

/-- C5 (amended): the parser tries, in order, the first fenced ```json
block, else the slice from the first `{` to the last `}` (the greedy regex
match — not the first top-level object), else the whole response; and when
the selected candidate fails to decode, the raised error makes the
orchestrator fall back to the default analysis. -/
theorem parse_ai_response_priority :
    (∀ response, parse_ai_response response = parse_ai_response_desc response) ∧
    (∀ (sender content resp : PyStr),
      ¬content.isEmpty = true → ¬resp.isEmpty = true → parse_ai_response resp = none →
      analyze_email_content (fun _ => some resp) content sender =
        get_default_analysis content (detect_language content)) := by
  constructor
  · intro response
    unfold parse_ai_response parse_ai_response_desc
    rw [braceCandidate_eq_braceSliceDesc]
  · intro sender content resp hc hr hp
    unfold analyze_email_content
    rw [Bool.not_eq_true] at hc hr
    simp only [hc, hr, Bool.false_eq_true, if_false, hp]

/-- Witness for C5 (amended): a concrete non-empty content and a concrete
undecodable response make the orchestrator return the default analysis. -/
theorem parse_ai_response_priority_witness :
    (¬(("hi").data).isEmpty = true) ∧ (¬(("x").data).isEmpty = true) ∧
    parse_ai_response (("x").data) = none ∧
    analyze_email_content (fun _ => some (("x").data)) (("hi").data) [] =
      get_default_analysis (("hi").data) (detect_language (("hi").data)) := by
  refine ⟨by decide, by decide, rfl, ?_⟩
  exact parse_ai_response_priority.2 [] (("hi").data) (("x").data)
    (by decide) (by decide) rfl

/- ### `EmailTranslator._detect_language` (src/trans.py, lines 89-116) -/

/-- The 26 ASCII lowercase letters iterated by the translation-path
detector. -/
def asciiLower : PyStr := ("abcdefghijklmnopqrstuvwxyz").data

/-- `EmailTranslator._detect_language`.  The argument is `Option PyStr`
because `translate_email` passes `processed_email.text_content`, which can
be `None`; `if not text` sends both `None` and `""` to `"unknown"`.
The `chinese_ratio > 0.3` float comparison is modelled by the exact rational
comparison `10 * chinese > 3 * total`, which coincides with the IEEE-double
computation for every text shorter than about `10^15` characters. -/
def trans_detect_language (text : Option PyStr) : PyStr :=
  match text with
  | none => ("unknown").data
  | some t =>
    if t.isEmpty then ("unknown").data
    else
      let chinese_chars := (t.filter isCJKChar).length
      let total_chars := (t.filter (fun c => c != ' ' && c != '\n')).length
      if total_chars = 0 then ("unknown").data
      else if 3 * total_chars < 10 * chinese_chars then ("zh").data
      else if asciiLower.any (fun l => (pyLower t).contains l) then ("en").data
      else ("unknown").data

/-- The translation-path heuristic as claim C7 words it: the ratio is taken
over all *non-whitespace* characters, and the `"en"` test asks whether the
text contains an ASCII letter. -/
def trans_detect_language_claimed (text : Option PyStr) : PyStr :=
  match text with
  | none => ("unknown").data
  | some t =>
    if t = [] then ("unknown").data
    else
      let cjk := t.countP isCJKChar
      let nonws := t.countP (fun c => !(isSpacePy c))
      if nonws = 0 then ("unknown").data
      else if 3 * nonws < 10 * cjk then ("zh").data
      else if t.any isLatinLetter then ("en").data
      else ("unknown").data

/-- The translation-path heuristic as the amended claim words it: the
denominator counts all characters other than the space and newline
characters (tabs and other whitespace are counted), and the `"en"` test
asks whether the lower-cased text contains one of the 26 ASCII lowercase
letters. -/
def trans_detect_language_desc (text : Option PyStr) : PyStr :=
  match text with
  | none => ("unknown").data
  | some t =>
    if t = [] then ("unknown").data
    else
      let cjk := t.countP isCJKChar
      let denom := t.countP (fun c => !(c == ' ' || c == '\n'))
      if denom = 0 then ("unknown").data
      else if 3 * denom < 10 * cjk then ("zh").data
      else if asciiLower.any (fun l => (pyLower t).contains l) then ("en").data
      else ("unknown").data

/-- C7 counterexample: on `"中\t\t\t"` the code keeps the three tabs in the
denominator (`ratio = 1/4 ≤ 0.3`) and answers `"unknown"`, while the
claim's whitespace-free denominator gives ratio `1 > 0.3`, hence `"zh"`;
and on `"İ"` the code lowercases to `i` + combining dot and answers
`"en"`, while the text contains no ASCII letter, so the claim answers
`"unknown"`. -/
theorem trans_detect_language_counterexample :
    trans_detect_language (some (("中\t\t\t").data)) = ("unknown").data ∧
    trans_detect_language_claimed (some (("中\t\t\t").data)) = ("zh").data ∧
    trans_detect_language (some ([Char.ofNat 0x130])) = ("en").data ∧
    trans_detect_language_claimed (some ([Char.ofNat 0x130])) = ("unknown").data := by
  exact ⟨by decide, by decide, by decide, by decide⟩

/-- C7 (amended): the translation-path detector equals the amended
description for every input, and the spec's empty-text example holds. -/
theorem trans_detect_language_matches_desc :
    (∀ text, trans_detect_language text = trans_detect_language_desc text) ∧
    trans_detect_language (some []) = ("unknown").data ∧
    trans_detect_language none = ("unknown").data := by
  refine ⟨?_, by decide, by decide⟩
  intro text
  cases text with
  | none => rfl
  | some t =>
    have hpred : (fun c : Char => !(c == ' ' || c == '\n')) =
        (fun c : Char => c != ' ' && c != '\n') := by
      funext c
      simp [Bool.not_or, bne]
    simp only [trans_detect_language, trans_detect_language_desc,
      List.countP_eq_length_filter, hpred, List.isEmpty_iff]

/- ### `EmailTranslator.translate_email` (src/trans.py, lines 27-87) -/

/-- The fixed code→display-name table (`lang_map.get(code, code)`). -/
def langName (code : PyStr) : PyStr :=
  if code = ("zh").data then ("中文").data
  else if code = ("en").data then ("英文").data
  else if code = ("ja").data then ("日文").data
  else if code = ("ko").data then ("韩文").data
  else if code = ("fr").data then ("法文").data
  else if code = ("de").data then ("德文").data
  else if code = ("es").data then ("西班牙文").data
  else if code = ("ru").data then ("俄文").data
  else code

/-- The translation prompt of `_translate_text`. -/
def transPrompt (source_name target_name text : PyStr) : PyStr :=
  ("请将以下").data ++ source_name ++ ("文本翻译成").data ++ target_name ++
  ("，保持原文的语气、格式和专业术语。只返回翻译结果，不要添加任何解释或说明。\n\n原文：\n").data ++
  text ++ ("\n\n翻译：").data

/-- `EmailTranslator._translate_text` (src/trans.py, lines 118-203), with
the completion endpoint abstracted as `oracle : PyStr → Option PyStr`
(`none` covers timeout, request failure, non-200 status and a malformed
response body, all of which make the source return the input text).  The
function receives `Option PyStr` because `translate_email` passes the
possibly-`None` `text_content`; `if not text or not text.strip()` returns
the argument unchanged in both the `None` and the blank case. -/
def translate_text (oracle : PyStr → Option PyStr) (text : Option PyStr)
    (source_lang target_lang : PyStr) : Option PyStr :=
  match text with
  | none => none
  | some t =>
    if t.isEmpty || (pyStrip t).isEmpty then some t
    else
      match oracle (transPrompt (langName source_lang) (langName target_lang) t) with
      | some resp => some (pyStrip resp)
      | none => some t

/-- `len(x)` for a possibly-`None` string: `len(None)` raises `TypeError`. -/
def pyLenOpt : Option PyStr → Except PyErr Nat
  | none => .error .typeError
  | some t => .ok t.length

/-- A `Json` value for a possibly-absent string (`None` ↦ JSON-level null
standing for Python `None`). -/
def optStrJson : Option PyStr → Json
  | none => Json.null
  | some s => Json.str s

/-- Placeholder for `str(e)` of a caught exception (the message text itself
is not modelled; no theorem inspects it). -/
def pyErrStr : PyErr → PyStr
  | .typeError => ("TypeError").data
  | .attributeError => ("AttributeError").data

/-- `EmailTranslator.translate_email`: detect the source language, return
the untranslated content when it equals the target, otherwise translate
subject and body and build the success dict — whose `original_content`
entry computes `len(processed_email.text_content)` and therefore raises
`TypeError` when `text_content` is `None`; the `except` handler builds an
error dict whose `original_content` entry computes the same length and
raises `TypeError` again, which propagates to the caller. -/
def translate_email (oracle : PyStr → Option PyStr) (e : ProcessedEmail)
    (target_language : PyStr) : Except PyErr PyDict :=
  let body : Except PyErr PyDict :=
    let original_language := trans_detect_language e.text_content
    if original_language = target_language then
      .ok [((("success").data), Json.bool true),
           ((("original_language").data), Json.str original_language),
           ((("target_language").data), Json.str target_language),
           ((("translated_subject").data), Json.str e.subject),
           ((("translated_content").data), optStrJson e.text_content),
           ((("message").data), Json.str (("原始语言与目标语言相同，无需翻译").data))]
    else
      let translated_subject := translate_text oracle (some e.subject)
        original_language target_language
      let translated_content := translate_text oracle e.text_content
        original_language target_language
      match pyLenOpt e.text_content with
      | .error err => .error err
      | .ok n =>
        .ok [((("success").data), Json.bool true),
             ((("original_language").data), Json.str original_language),
             ((("target_language").data), Json.str target_language),
             ((("original_subject").data), Json.str e.subject),
             ((("original_content").data),
               Json.str (if 500 < n then (e.text_content.getD []).take 500 ++ ("...").data
                 else e.text_content.getD [])),
             ((("translated_subject").data), optStrJson translated_subject),
             ((("translated_content").data), optStrJson translated_content),
             ((("from_email").data), Json.str e.from_email),
             ((("to_email").data), Json.str e.to_email),
             ((("message_id").data), Json.str e.message_id)]
  match body with
  | .ok d => .ok d
  | .error err =>
    match pyLenOpt e.text_content with
    | .error err2 => .error err2
    | .ok n =>
      .ok [((("success").data), Json.bool false),
           ((("error").data), Json.str (pyErrStr err)),
           ((("original_subject").data), Json.str e.subject),
           ((("original_content").data),
             Json.str (if 200 < n then (e.text_content.getD []).take 200 ++ ("...").data
               else e.text_content.getD []))]

/-- C10: when `text_content` is absent and the target language differs from
the detected `"unknown"`, `translate_email` returns no result dict at all:
the success path raises `TypeError` computing `len(None)`, the `except`
handler raises `TypeError` again on the same length, and the exception
propagates to the caller. -/
theorem translate_email_none_content_raises (oracle : PyStr → Option PyStr)
    (e : ProcessedEmail) (target : PyStr)
    (htc : e.text_content = none) (ht : target ≠ ("unknown").data) :
    translate_email oracle e target = .error PyErr.typeError := by
  unfold translate_email
  rw [htc]
  have hdet : trans_detect_language none = ("unknown").data := rfl
  rw [hdet, if_neg (fun h => ht h.symm)]
  rfl

/-- Witness for C10: a concrete `ProcessedEmail` without text content and
target `"zh"` make `translate_email` propagate `TypeError`. -/
theorem translate_email_none_content_raises_witness :
    (⟨[], [], [], [], [], none, none, [], 0⟩ : ProcessedEmail).text_content = none ∧
    (("zh").data ≠ ("unknown").data) ∧
    translate_email (fun _ => none) ⟨[], [], [], [], [], none, none, [], 0⟩ (("zh").data) =
      .error PyErr.typeError := by
  refine ⟨rfl, by decide, ?_⟩
  exact translate_email_none_content_raises (fun _ => none)
    ⟨[], [], [], [], [], none, none, [], 0⟩ (("zh").data) rfl (by decide)

/- ### `is_forwarded_email` (src/utils.py, lines 7-39) -/

/-- The subject-line forwarding indicators, in source order. -/
def forwardedIndicators : List PyStr :=
  [("fwd:").data, ("fw:").data, ("转发:").data, ("转：").data,
   ("forward:").data, ("forwarded:").data]

/-- The body indicators, in source order: six secondary banners followed by
the four generic header tokens (the source slices this one list with
`[-4:]` and `[:-4]`). -/
def contentIndicators : List PyStr :=
  [("forwarded message").data, ("转发的邮件").data, ("转发邮件").data,
   ("original message").data, ("原始邮件").data, ("---------- forwarded message").data,
   ("from:").data, ("sent:").data, ("to:").data, ("subject:").data]

/-- `is_forwarded_email`. -/
def is_forwarded_email (subject content : PyStr) : Bool :=
  if subject.isEmpty && content.isEmpty then false
  else
    let subject_lower := if subject.isEmpty then [] else pyLower subject
    if forwardedIndicators.any (fun ind => containsSub subject_lower ind) then true
    else if content.isEmpty then false
    else
      let content_lower := pyLower content
      let header_count := (contentIndicators.drop 6).countP
        (fun ind => containsSub content_lower ind)
      if 2 ≤ header_count then true
      else (contentIndicators.take 6).any (fun ind => containsSub content_lower ind)

/-- `is_forwarded_email` as claim C8 words it: subject indicators first,
then at least 2 of the 4 header tokens, then the secondary indicator set,
with `false` as the final answer (which also covers the empty/empty
case). -/
def is_forwarded_email_desc (subject content : PyStr) : Bool :=
  let sl := pyLower subject
  let cl := pyLower content
  (containsSub sl (("fwd:").data) || containsSub sl (("fw:").data) ||
   containsSub sl (("转发:").data) || containsSub sl (("转：").data) ||
   containsSub sl (("forward:").data) || containsSub sl (("forwarded:").data)) ||
  2 ≤ b2n (containsSub cl (("from:").data)) + b2n (containsSub cl (("sent:").data)) +
      b2n (containsSub cl (("to:").data)) + b2n (containsSub cl (("subject:").data)) ||
  (containsSub cl (("forwarded message").data) || containsSub cl (("转发的邮件").data) ||
   containsSub cl (("转发邮件").data) || containsSub cl (("original message").data) ||
   containsSub cl (("原始邮件").data) || containsSub cl (("---------- forwarded message").data))

/-- `pyLower` of the empty string. -/
theorem pyLower_nil : pyLower [] = [] := rfl

/-- A non-empty pattern never occurs in the empty string. -/
theorem containsSub_nil (c : Char) (p : PyStr) : containsSub [] (c :: p) = false := rfl

/-- C8: the forwarded-email classifier decides exactly the claim's
disjunction, and the spec's two examples evaluate as stated. -/
theorem is_forwarded_email_matches_spec :
    (∀ subject content, is_forwarded_email subject content =
      is_forwarded_email_desc subject content) ∧
    is_forwarded_email (("Fwd: Meeting notes").data) [] = true ∧
    is_forwarded_email (("Hello").data) (("Just checking in").data) = false ∧
    is_forwarded_email [] [] = false := by
  refine ⟨?_, by decide, by decide, by decide⟩
  intro subject content
  unfold is_forwarded_email is_forwarded_email_desc
  cases subject with
  | nil =>
    cases content with
    | nil => decide
    | cons c0 cr =>
      simp only [List.isEmpty_cons, List.isEmpty_nil, Bool.true_and, Bool.and_false,
        Bool.false_and, if_false, Bool.false_eq_true, if_true]
      simp only [forwardedIndicators, contentIndicators, List.any_cons, List.any_nil,
        List.countP_cons, List.countP_nil, List.drop, List.take, b2n, pyLower_nil,
        containsSub_nil]
      generalize containsSub (pyLower (c0 :: cr)) (("from:").data) = a1
      generalize containsSub (pyLower (c0 :: cr)) (("sent:").data) = a2
      generalize containsSub (pyLower (c0 :: cr)) (("to:").data) = a3
      generalize containsSub (pyLower (c0 :: cr)) (("subject:").data) = a4
      generalize containsSub (pyLower (c0 :: cr)) (("forwarded message").data) = b1
      generalize containsSub (pyLower (c0 :: cr)) (("转发的邮件").data) = b2
      generalize containsSub (pyLower (c0 :: cr)) (("转发邮件").data) = b3
      generalize containsSub (pyLower (c0 :: cr)) (("original message").data) = b4
      generalize containsSub (pyLower (c0 :: cr)) (("原始邮件").data) = b5
      generalize containsSub (pyLower (c0 :: cr)) (("---------- forwarded message").data) = b6
      revert a1 a2 a3 a4 b1 b2 b3 b4 b5 b6
      decide
  | cons s0 sr =>
    cases content with
    | nil =>
      simp only [List.isEmpty_cons, List.isEmpty_nil, Bool.and_true, Bool.false_and,
        if_false, Bool.false_eq_true, if_true]
      simp only [forwardedIndicators, contentIndicators, List.any_cons, List.any_nil,
        List.countP_cons, List.countP_nil, List.drop, List.take, b2n]
      simp [Bool.or_assoc, containsSub_nil, pyLower_nil]
    | cons c0 cr =>
      simp only [List.isEmpty_cons, Bool.false_and, if_false, Bool.false_eq_true, if_true]
      simp only [forwardedIndicators, contentIndicators, List.any_cons, List.any_nil,
        List.countP_cons, List.countP_nil, List.drop, List.take, b2n]
      have hsum :
          (((0 + if containsSub (pyLower (c0 :: cr)) (("subject:").data) = true then 1 else 0) +
              if containsSub (pyLower (c0 :: cr)) (("to:").data) = true then 1 else 0) +
            if containsSub (pyLower (c0 :: cr)) (("sent:").data) = true then 1 else 0) +
            (if containsSub (pyLower (c0 :: cr)) (("from:").data) = true then 1 else 0) =
          (((if containsSub (pyLower (c0 :: cr)) (("from:").data) = true then 1 else 0) +
              if containsSub (pyLower (c0 :: cr)) (("sent:").data) = true then 1 else 0) +
            if containsSub (pyLower (c0 :: cr)) (("to:").data) = true then 1 else 0) +
            (if containsSub (pyLower (c0 :: cr)) (("subject:").data) = true then 1 else 0) := by
        ac_rfl
      by_cases h2 : 2 ≤
          (((0 + if containsSub (pyLower (c0 :: cr)) (("subject:").data) = true then 1 else 0) +
              if containsSub (pyLower (c0 :: cr)) (("to:").data) = true then 1 else 0) +
            if containsSub (pyLower (c0 :: cr)) (("sent:").data) = true then 1 else 0) +
            (if containsSub (pyLower (c0 :: cr)) (("from:").data) = true then 1 else 0)
      · rw [if_pos h2, decide_eq_true (hsum ▸ h2)]
        simp
      · rw [if_neg h2, decide_eq_false (fun hx => h2 (hsum ▸ hx))]
        simp [Bool.or_assoc]

/- ### `EmailAnalyzer.generate_reply` (src/ai_analyzer.py, lines 175-441) -/

/-- Join a list of strings with a separator (`sep.join(parts)`). -/
def joinSep (sep : PyStr) : List PyStr → PyStr
  | [] => []
  | [l] => l
  | l :: rest => l ++ sep ++ joinSep sep rest

/-- Python `s.split(',')`. -/
def splitOnComma : List Char → List PyStr
  | [] => [[]]
  | c :: rest =>
    if c = ',' then [] :: splitOnComma rest
    else
      match splitOnComma rest with
      | h :: t => (c :: h) :: t
      | [] => [[c]]

mutual

/-- Python `repr()` of a JSON-shaped value (ints, booleans, `None`, strings
in single quotes, lists and dicts).  String-escape subtleties of `repr` are
not modelled; no theorem below depends on the repr of a string that would
need escaping. -/
def pyReprOf : Json → PyStr
  | .null => ("None").data
  | .bool true => ("True").data
  | .bool false => ("False").data
  | .num n => (toString n).data
  | .str s => Char.ofNat 39 :: s ++ [Char.ofNat 39]
  | .arr xs => '[' :: joinSep ((", ").data) (pyReprListOf xs) ++ [']']
  | .obj kvs => Char.ofNat 123 :: joinSep ((", ").data) (pyReprKvsOf kvs) ++ [Char.ofNat 125]

/-- `repr` of the elements of a list. -/
def pyReprListOf : List Json → List PyStr
  | [] => []
  | x :: xs => pyReprOf x :: pyReprListOf xs

/-- `repr` of the key/value pairs of a dict. -/
def pyReprKvsOf : List (PyStr × Json) → List PyStr
  | [] => []
  | (k, v) :: t =>
    (Char.ofNat 39 :: k ++ Char.ofNat 39 :: ':' :: ' ' :: pyReprOf v) :: pyReprKvsOf t

end

/-- Python `str()` as used by f-string interpolation: a `str` stays itself,
every other value uses its `repr`. -/
def pyStrOf : Json → PyStr
  | .str s => s
  | v => pyReprOf v

/-- Scanner for `re.sub(r'<[^>]+>', '', content)`: outside a candidate tag
the buffer is `none`; inside, it holds the consumed characters in reverse.
A `>` closing a buffer of length at least 2 (a `<` plus at least one
non-`>` character) deletes the tag; `<>` matches nothing and is kept; an
unclosed `<...` suffix is kept verbatim. -/
def stripTagsGo : List Char → Option (List Char) → List Char
  | [], none => []
  | [], some buf => buf.reverse
  | c :: rest, none =>
    if c = '<' then stripTagsGo rest (some [c]) else c :: stripTagsGo rest none
  | c :: rest, some buf =>
    if c = '>' then
      if 2 ≤ buf.length then stripTagsGo rest none
      else buf.reverse ++ '>' :: stripTagsGo rest none
    else stripTagsGo rest (some (c :: buf))

/-- `re.sub(r'<[^>]+>', '', content)`. -/
def stripHtmlTags (content : PyStr) : PyStr :=
  stripTagsGo content none

/-- The blank-line collapsing loop of `_clean_original_content`:
`prevEmpty` is the loop's `prev_empty` flag; the lines are already
stripped. -/
def collapseBlanks : List PyStr → Bool → List PyStr
  | [], _ => []
  | l :: t, prevEmpty =>
    if l.isEmpty then
      if prevEmpty then collapseBlanks t true else [] :: collapseBlanks t true
    else l :: collapseBlanks t false

/-- Drop empty lines from both ends (the two `while ... pop` loops). -/
def dropBlankEnds (ls : List PyStr) : List PyStr :=
  ((ls.dropWhile List.isEmpty).reverse.dropWhile List.isEmpty).reverse

/-- `EmailAnalyzer._clean_original_content` (src/ai_analyzer.py, lines
343-378): strip HTML tags, strip each line, collapse consecutive blank
lines, drop leading/trailing blank lines, re-join. -/
def clean_original_content (content : PyStr) : PyStr :=
  if content.isEmpty then []
  else
    joinNl (dropBlankEnds
      (collapseBlanks ((splitOnNl (stripHtmlTags content)).map pyStrip) false))

/-- `EmailAnalyzer._add_original_quote` (src/ai_analyzer.py, lines
321-341). -/
def add_original_quote (reply_body original_content : PyStr) (language : Json) : PyStr :=
  if original_content.isEmpty || (pyStrip original_content).isEmpty then reply_body
  else
    let cleaned := clean_original_content original_content
    let quote_header :=
      if language.eqStr (("en").data) then ("\n\n--- Original Message ---\n").data
      else ("\n\n--- 原邮件 ---\n").data
    let quoted := joinNl ((splitOnNl cleaned).map (fun line => ("> ").data ++ line))
    reply_body ++ quote_header ++ quoted

/-- `EmailAnalyzer._determine_reply_language` (src/ai_analyzer.py, lines
200-215): forwarded mail replies in the detected language of the original,
everything else always in Chinese. -/
def determine_reply_language (analysis : PyDict) (is_forwarded_email : Bool) : Json :=
  if is_forwarded_email then
    jgetD analysis (("detected_language").data) (Json.str (("zh").data))
  else Json.str (("zh").data)

/-- `EmailAnalyzer._format_required_info` (src/ai_analyzer.py, lines
423-433).  A falsy value yields the default bullet; a string is split on
commas into bullets; for a truthy non-string, Python either raises
(`',' in 5` is a `TypeError`; `[...].split` is an `AttributeError`) or
falls through to a single bullet around the value's repr. -/
def format_required_info (requires_info : Json) : Except PyErr PyStr :=
  if requires_info.truthy = false then .ok (("• 更多详细信息").data)
  else
    match requires_info with
    | .str s =>
      if s.contains ',' then
        .ok (joinNl (((splitOnComma s).map pyStrip).filterMap
          (fun item => if item.isEmpty then none else some (("• ").data ++ item))))
      else .ok (("• ").data ++ s)
    | .arr xs =>
      if xs.any (fun v => v.eqStr ([','])) then .error .attributeError
      else .ok (("• ").data ++ pyStrOf (.arr xs))
    | .obj kvs =>
      if kvs.any (fun kv => kv.1 = [',']) then .error .attributeError
      else .ok (("• ").data ++ pyStrOf (.obj kvs))
    | _ => .error .typeError

/-- `EmailAnalyzer._generate_detailed_info_request` (src/ai_analyzer.py,
lines 380-392); `main_topic`/`requires_info` are accepted and unused, as in
the source. -/
def generate_detailed_info_request (analysis : PyDict)
    (main_topic requires_info : PyStr) : PyStr :=
  let intent := jgetD analysis (("intent").data) (Json.str (("未知").data))
  let urgency := jgetD analysis (("urgency").data) (Json.str (("normal").data))
  let base := ("根据我们的AI智能分析系统判断，您的邮件属于\x27").data ++ pyStrOf intent ++
    ("\x27类型，紧急程度为\x27").data ++ pyStrOf urgency ++ ("\x27。").data
  if urgency.eqStr (("high").data) then
    base ++ ("鉴于此事的紧急性，我们已将您的邮件标记为高优先级处理。").data
  else if urgency.eqStr (("low").data) then
    base ++ ("我们会按照标准流程为您处理此事。").data
  else base

/-- `x[:n]` on a dynamically typed value: strings and lists slice, anything
else raises `TypeError`. -/
def pySlice : Json → Nat → Except PyErr Json
  | .str s, n => .ok (.str (s.take n))
  | .arr xs, n => .ok (.arr (xs.take n))
  | _, _ => .error .typeError

/-- Iteration over a dynamically typed value (`for item in x`): a string
yields its characters as one-character strings, a list its elements, a dict
its keys; anything else raises `TypeError`. -/
def pyIter : Json → Except PyErr (List Json)
  | .str s => .ok (s.map (fun c => Json.str [c]))
  | .arr xs => .ok xs
  | .obj kvs => .ok (kvs.map (fun kv => Json.str kv.1))
  | _ => .error .typeError

/-- `EmailAnalyzer._generate_detailed_auto_reply` (src/ai_analyzer.py,
lines 394-421). -/
def generate_detailed_auto_reply (analysis : PyDict) (main_topic : PyStr)
    (summary : Json) : Except PyErr PyStr := do
  let intent := jgetD analysis (("intent").data) (Json.str (("未知").data))
  let urgency := jgetD analysis (("urgency").data) (Json.str (("normal").data))
  let todo_items := jgetD analysis (("todo_items").data) (Json.arr [])
  let parts1 := [("经过我们的AI智能分析系统处理，您的邮件已被识别为\x27").data ++
    pyStrOf intent ++ ("\x27类型。").data]
  let parts2 ←
    if summary.truthy then do
      let s ← pySlice summary 300
      pure (parts1 ++ [("邮件内容摘要：").data ++ pyStrOf s])
    else pure parts1
  let parts3 ←
    if todo_items.truthy then do
      let sliced ← pySlice todo_items 5
      let items ← pyIter sliced
      pure (parts2 ++ [("我们已为您的请求生成以下处理要点：").data] ++
        (items.enumFrom 1).map
          (fun p => (toString p.1).data ++ (". ").data ++ pyStrOf p.2))
    else pure parts2
  let parts4 :=
    if urgency.eqStr (("high").data) then
      parts3 ++ [("⚠️ 重要提醒：您的邮件已被标记为高优先级，我们会加急处理。").data]
    else if urgency.eqStr (("medium").data) then
      parts3 ++ [("📋 处理说明：您的邮件为中等优先级，我们会在标准时间内处理。").data]
    else parts3
  pure (joinSep (("\n\n").data) parts4)

/-- The English info-request reply body (src/ai_analyzer.py, lines
224-234); `ses_from_email` stands for `config.SES_FROM_EMAIL`. -/
def enInfoBody (main_topic requires_info ses_from_email : PyStr) : PyStr :=
  ("Dear Sender,\n\nThank you for your email regarding \"").data ++ main_topic ++
  ("\".\n\nTo better assist you, we need some additional information: ").data ++
  requires_info ++
  ("\n\nCould you please provide these details so we can give you a more accurate response?\n\nBest regards,\nAI Assistant\n").data ++
  ses_from_email

/-- The Chinese info-request reply body (src/ai_analyzer.py, lines
239-261). -/
def zhInfoBody (main_topic detailed_info fmt : PyStr) : PyStr :=
  ("您好！\n\n感谢您关于\"").data ++ main_topic ++
  ("\"的邮件。我们已仔细审阅了您的来信内容。\n\n").data ++ detailed_info ++
  ("\n\n为了能够为您提供最准确、最有针对性的解决方案，我们需要您提供以下补充信息：\n\n").data ++
  fmt ++
  ("\n\n请您在回复邮件时详细提供上述信息。我们的技术团队会根据您提供的具体情况，为您制定个性化的解决方案。\n\n如果您在提供信息时遇到任何困难，或者有其他相关问题，请随时与我们联系。我们承诺会在收到您的详细信息后24小时内给出专业回复。\n\n此致\n敬礼！\n\nAI智能助手\n技术支持团队\nai@kr777.top\n\n---\n本邮件由AI智能系统自动生成，如需人工客服协助，请在邮件中注明\"转人工客服\"。").data

/-- `EmailAnalyzer._generate_info_request_reply` (src/ai_analyzer.py,
lines 217-265). -/
def generate_info_request_reply (ses_from_email : PyStr) (analysis : PyDict)
    (subject original_content : PyStr) (language : Json) (is_forwarded_email : Bool) :
    Except PyErr (PyStr × PyStr) :=
  let requires_info := jgetD analysis (("requires_info").data) (Json.str (("更多详细信息").data))
  let main_topic := jgetD analysis (("main_topic").data) (Json.str (("您的请求").data))
  if language.eqStr (("en").data) && is_forwarded_email then
    let reply_subject := ("Re: ").data ++ subject ++ (" - Additional Information Needed").data
    let reply_body := enInfoBody (pyStrOf main_topic) (pyStrOf requires_info) ses_from_email
    .ok (reply_subject, add_original_quote reply_body original_content language)
  else
    let reply_subject := ("Re: ").data ++ subject ++ (" - 需要补充信息").data
    let detailed_info := generate_detailed_info_request analysis (pyStrOf main_topic)
      (pyStrOf requires_info)
    match format_required_info requires_info with
    | .error err => .error err
    | .ok fmt =>
      let reply_body := zhInfoBody (pyStrOf main_topic) detailed_info fmt
      .ok (reply_subject, add_original_quote reply_body original_content language)

/-- The English auto-reply body (src/ai_analyzer.py, lines 275-285). -/
def enAutoBody (main_topic mid : PyStr) : PyStr :=
  ("Dear Sender,\n\nThank you for your email regarding \"").data ++ main_topic ++
  ("\".\n\nWe have received and reviewed your message. ").data ++ mid ++
  ("\n\nWe will get back to you soon.\n\nBest regards,\nAI Assistant\nai@kr777.top").data

/-- The Chinese auto-reply body (src/ai_analyzer.py, lines 290-315);
`ticketId` stands for the time-and-randomness-based
`_generate_ticket_id()` result. -/
def zhAutoBody (main_topic detailed_response ticketId : PyStr) : PyStr :=
  ("您好！\n\n感谢您关于\"").data ++ main_topic ++
  ("\"的邮件。我们已收到并仔细审阅了您的来信。\n\n").data ++ detailed_response ++
  ("\n\n我们的处理流程如下：\n1. 邮件内容分析和分类（已完成）\n2. 相关部门分配和评估（进行中）\n3. 制定详细解决方案（24小时内）\n4. 专业回复和后续跟进（48小时内）\n\n在处理您的请求期间，如果您有任何补充信息或紧急情况，请随时回复此邮件。我们会优先处理您的后续来信。\n\n我们承诺为您提供最专业、最及时的服务。感谢您对我们的信任与支持。\n\n此致\n敬礼！\n\nAI智能助手\n客户服务中心\nai@kr777.top\n\n---\n邮件处理编号：").data ++
  ticketId ++
  ("\n如需查询处理进度，请在回复中提供此编号。").data

/-- `EmailAnalyzer._generate_auto_reply` (src/ai_analyzer.py, lines
267-319). -/
def generate_auto_reply (ticketId : PyStr) (analysis : PyDict)
    (subject original_content : PyStr) (language : Json) (is_forwarded_email : Bool) :
    Except PyErr (PyStr × PyStr) := do
  let main_topic := jgetD analysis (("main_topic").data) (Json.str (("您的请求").data))
  let summary := jgetD analysis (("chinese_content").data) (Json.str [])
  if language.eqStr (("en").data) && is_forwarded_email then do
    let mid ←
      if summary.truthy then do
        let s ← pySlice summary 200
        pure (pyStrOf s)
      else pure (("We will process your request accordingly.").data)
    let reply_body := enAutoBody (pyStrOf main_topic) mid
    pure ((("Re: ").data) ++ subject, add_original_quote reply_body original_content language)
  else do
    let detailed ← generate_detailed_auto_reply analysis (pyStrOf main_topic) summary
    let reply_body := zhAutoBody (pyStrOf main_topic) detailed ticketId
    pure ((("Re: ").data) ++ subject, add_original_quote reply_body original_content language)

/-- `EmailAnalyzer.generate_reply` (src/ai_analyzer.py, lines 175-198).
`ses_from_email` and `ticketId` stand for `config.SES_FROM_EMAIL` and the
randomness-based ticket id.  When `reply_content` is truthy but not a
string, quoting it (string concatenation with the quote header) raises
`TypeError`, modelled as an error (with blank `original_content` Python
would instead hand the raw non-string value onward, which the
`AnalysisResult` schema rules out and the `PyStr × PyStr` result type
cannot represent). -/
def generate_reply (ses_from_email ticketId : PyStr) (analysis : PyDict)
    (original_subject original_content : PyStr) (is_forwarded_email : Bool) :
    Except PyErr (PyStr × PyStr) :=
  let reply_language := determine_reply_language analysis is_forwarded_email
  if truthyO (jget analysis (("reply_content").data)) &&
     (jgetD analysis (("need_reply").data) (Json.bool false)).truthy then
    match jget analysis (("reply_content").data) with
    | some (Json.str rc) =>
      .ok ((("Re: ").data) ++ original_subject,
        add_original_quote rc original_content reply_language)
    | _ => .error .typeError
  else if (jgetD analysis (("can_auto_reply").data) (Json.bool false)).truthy then
    generate_auto_reply ticketId analysis original_subject original_content
      reply_language is_forwarded_email
  else
    generate_info_request_reply ses_from_email analysis original_subject original_content
      reply_language is_forwarded_email

/-- Did the call return normally? -/
def exOk : Except PyErr (PyStr × PyStr) → Bool
  | .ok _ => true
  | .error _ => false

/-- The subject of a normally returned reply. -/
def exSubj : Except PyErr (PyStr × PyStr) → PyStr
  | .ok p => p.1
  | .error _ => []

/-- The body of a normally returned reply. -/
def exBody : Except PyErr (PyStr × PyStr) → PyStr
  | .ok p => p.2
  | .error _ => []

/-- Every list is a prefix of itself extended. -/
theorem startsWithL_append (p t : List Char) : startsWithL p (p ++ t) = true := by
  induction p with
  | nil => rfl
  | cons c cs ih => simp [startsWithL, ih]

/-- C9 counterexample: with the empty analysis dict (`canAutoReply` falsy,
`replyContent` falsy), subject `"S"` and the non-blank original content
`"x<y>z"`, the composed body quotes the *cleaned* original (`"> xz"`, the
HTML-like tag `<y>` stripped) — it does not contain the original content
`"x<y>z"` under a `"> "` prefix, so the claim's "contains the original
content with every line prefixed by `> `" is false of the code, even
though the subject does start with `"Re: "`. -/
theorem generate_reply_quote_counterexample :
    truthyO (jget [] (("reply_content").data)) = false ∧
    (jgetD [] (("can_auto_reply").data) (Json.bool false)).truthy = false ∧
    (pyStrip (("x<y>z").data)).isEmpty = false ∧
    exOk (generate_reply (("ai@kr777.top").data) [] [] (("S").data) (("x<y>z").data) false) =
      true ∧
    startsWithL (("Re: ").data)
      (exSubj (generate_reply (("ai@kr777.top").data) [] [] (("S").data) (("x<y>z").data)
        false)) = true ∧
    ((splitOnNl (("x<y>z").data)).all (fun line =>
      containsSub
        (exBody (generate_reply (("ai@kr777.top").data) [] [] (("S").data) (("x<y>z").data)
          false))
        ((("> ").data) ++ line))) = false ∧
    containsSub
      (exBody (generate_reply (("ai@kr777.top").data) [] [] (("S").data) (("x<y>z").data)
        false))
      ((("> ").data) ++ clean_original_content (("x<y>z").data)) = true := by
  exact ⟨rfl, rfl, rfl, rfl, by decide, by decide, by decide⟩

/-- C9 (amended): for every analysis whose `reply_content` is empty or
absent and whose `can_auto_reply` is falsy (with `requires_info` of a shape
`_format_required_info` accepts, e.g. any string or an absent key), every
subject, and every non-blank original content, the non-forwarded reply
language policy forces Chinese, the composed subject is
`"Re: " ++ subject ++ " - 需要补充信息"` (in particular it starts with
`"Re: "`), and the body ends with the Chinese quote header followed by the
*cleaned* original content (HTML tags removed, lines trimmed, blank runs
collapsed, blank ends dropped) with every line prefixed by `"> "`. -/
theorem generate_reply_info_request_quotes (ses tid : PyStr) (analysis : PyDict)
    (subject orig : PyStr)
    (hrc : truthyO (jget analysis (("reply_content").data)) = false)
    (hca : (jgetD analysis (("can_auto_reply").data) (Json.bool false)).truthy = false)
    (hor : (pyStrip orig).isEmpty = false)
    (hfmt : ∃ fmt, format_required_info (jgetD analysis (("requires_info").data)
      (Json.str (("更多详细信息").data))) = .ok fmt) :
    determine_reply_language analysis false = Json.str (("zh").data) ∧
    startsWithL (("Re: ").data)
      (exSubj (generate_reply ses tid analysis subject orig false)) = true ∧
    ∃ core, generate_reply ses tid analysis subject orig false =
      .ok ((("Re: ").data) ++ (subject ++ ((" - 需要补充信息").data)),
        core ++ (("\n\n--- 原邮件 ---\n").data) ++
          joinNl ((splitOnNl (clean_original_content orig)).map
            (fun line => (("> ").data) ++ line))) := by
  obtain ⟨fmt, hfmt'⟩ := hfmt
  have horig : orig.isEmpty = false := by
    cases orig with
    | nil => exact absurd hor (by decide)
    | cons c cs => rfl
  have hmain : generate_reply ses tid analysis subject orig false =
      .ok ((("Re: ").data) ++ (subject ++ ((" - 需要补充信息").data)),
        zhInfoBody
            (pyStrOf (jgetD analysis (("main_topic").data) (Json.str (("您的请求").data))))
            (generate_detailed_info_request analysis
              (pyStrOf (jgetD analysis (("main_topic").data) (Json.str (("您的请求").data))))
              (pyStrOf (jgetD analysis (("requires_info").data)
                (Json.str (("更多详细信息").data)))))
            fmt ++
          (("\n\n--- 原邮件 ---\n").data) ++
          joinNl ((splitOnNl (clean_original_content orig)).map
            (fun line => (("> ").data) ++ line))) := by
    unfold generate_reply
    rw [hrc]
    simp only [Bool.false_and, Bool.false_eq_true, if_false, hca]
    unfold generate_info_request_reply
    have hlang : determine_reply_language analysis false = Json.str (("zh").data) := rfl
    rw [hlang]
    simp only [Json.eqStr, Bool.false_and, Bool.false_eq_true, if_false]
    rw [hfmt']
    unfold add_original_quote
    rw [horig, hor]
    simp only [Bool.or_self, Bool.false_eq_true, if_false]
    rfl
  refine ⟨rfl, ?_, ?_⟩
  · rw [hmain]
    simp only [exSubj, List.append_assoc]
    exact startsWithL_append (("Re: ").data) _
  · exact ⟨_, hmain⟩

/-- Witness for C9 (amended): the empty analysis dict, subject `"S"` and
original content `"hi"` satisfy the hypotheses, giving the Chinese policy
language, the `"Re: "` subject and the quoted body. -/
theorem generate_reply_info_request_quotes_witness :
    determine_reply_language [] false = Json.str (("zh").data) ∧
    startsWithL (("Re: ").data)
      (exSubj (generate_reply (("ai@kr777.top").data) [] [] (("S").data) (("hi").data)
        false)) = true ∧
    ∃ core, generate_reply (("ai@kr777.top").data) [] [] (("S").data) (("hi").data) false =
      .ok ((("Re: ").data) ++ ((("S").data) ++ ((" - 需要补充信息").data)),
        core ++ (("\n\n--- 原邮件 ---\n").data) ++
          joinNl ((splitOnNl (clean_original_content (("hi").data))).map
            (fun line => (("> ").data) ++ line))) := by
  exact generate_reply_info_request_quotes (("ai@kr777.top").data) [] [] (("S").data)
    (("hi").data) rfl rfl (by decide) ⟨(("• 更多详细信息").data), rfl⟩

end MailBox
